import Mathlib

/-! AirNotfy_Go: air-quality poller (`main.go`)

A shallow embedding of `main.go`: the JSON envelope types, the classifier
`analyze`, the fetch routine `getData`, the notifier `pushAnnounce` and the
driver `main`.

Effects are made explicit.  Every function that talks to the outside world
returns the list of events it produces (function entries, lines written to
standard output, outbound HTTP requests, sleeps), and reads what the outside
world answers from an argument.  The endless `for` loop of `main` is unrolled
for a given number of rounds.

Go `int`/`int64` values are embedded as `Int`; the program only compares and
prints them.  A `float64` is embedded as its IEEE-754 bit pattern; the program
only moves such values around, and the zero value `0.0` has bit pattern `0`.
-/

namespace AirNotfy

/-! ## Data model (`main.go`, lines 17-91) -/

/-- Bit pattern of a Go `float64`. -/
abbrev Float64 := Nat

/-- Go `[]byte`. -/
abbrev Bytes := List Nat

structure Attribution where
  URL : String
  Name : String
deriving DecidableEq, Repr

structure City where
  Geo : List Float64
  Name : String
  URL : String
  Location : String
deriving DecidableEq, Repr

structure Value where
  V : Float64
deriving DecidableEq, Repr

structure IAQI where
  CO : Value
  H : Value
  NO2 : Value
  O3 : Value
  P : Value
  PM10 : Value
  PM25 : Value
  SO2 : Value
  T : Value
  W : Value
deriving DecidableEq, Repr

structure Time where
  S : String
  TZ : String
  V : Int
  ISO : String
deriving DecidableEq, Repr

structure Pollutant where
  Avg : Int
  Day : String
  Max : Int
  Min : Int
deriving DecidableEq, Repr

structure Daily where
  O3 : List Pollutant
  PM10 : List Pollutant
  PM25 : List Pollutant
  UVI : List Pollutant
deriving DecidableEq, Repr

structure Forecast where
  Daily : Daily
deriving DecidableEq, Repr

structure Debug where
  Sync : String
deriving DecidableEq, Repr

structure Data where
  AQI : Int
  Idx : Int
  Attributions : List Attribution
  City : City
  Dominentpol : String
  IAQI : IAQI
  Time : Time
  Forecast : Forecast
  Debug : Debug
deriving DecidableEq, Repr

structure Response where
  Status : String
  Data : Data
deriving DecidableEq, Repr

/-- The Go composite literal `IAQI{}`: every sub-index is `0.0`. -/
def IAQI.zero : IAQI :=
  ⟨⟨0⟩, ⟨0⟩, ⟨0⟩, ⟨0⟩, ⟨0⟩, ⟨0⟩, ⟨0⟩, ⟨0⟩, ⟨0⟩, ⟨0⟩⟩

/-! ## Library behaviour the program relies on -/

/-- Go `strconv.Itoa` (also what `%d` and `fmt.Println` print for an `int`):
the decimal digits, with a leading minus sign for a negative number. -/
def Itoa (i : Int) : String :=
  if i < 0 then "-" ++ Nat.repr i.natAbs else Nat.repr i.natAbs

/-- A value stored in the `map[string]interface{}` handed to `json.Marshal`. -/
inductive Any where
  | str (s : String)
  | int (n : Int)
deriving DecidableEq, Repr

/-- What `http.Get` followed by `io.ReadAll` yields in one round. -/
inductive HttpResult where
  /-- The call `http.Get` returned a non-nil error with this message. -/
  | getErr (err : String)
  /-- The call `io.ReadAll` returned a non-nil error with this message. -/
  | readErr (err : String)
  /-- The response body was read in full. -/
  | body (b : Bytes)
deriving DecidableEq, Repr

/-- What `http.Post` yields. -/
inductive PostResult where
  /-- The call `http.Post` returned a non-nil error with this message. -/
  | err (err : String)
  /-- A response arrived, with this status code. -/
  | resp (StatusCode : Int)
deriving DecidableEq, Repr

/-- Go `json.Unmarshal(body, &apiResp)`: an error message, or the decoded
envelope. -/
abbrev Unmarshal := Bytes → Except String Response

/-- Observable events of a run, in the order they happen. -/
inductive Event where
  /-- Entry into `getData`. -/
  | getDataCall
  /-- Entry into `pushAnnounce` with its two arguments. -/
  | pushAnnounceCall (title message : String)
  /-- Text written to standard output. -/
  | stdout (text : String)
  /-- Outbound `http.Get`. -/
  | httpGet (url : String)
  /-- Outbound `http.Post`; `data` is the map that is marshalled as the body. -/
  | httpPost (url contentType : String) (data : List (String × Any))
  /-- Call `time.Sleep` with a duration in nanoseconds. -/
  | sleep (ns : Nat)
deriving DecidableEq, Repr

/-- The answers of the outside world during one round of the driver loop. -/
structure Cycle where
  get : HttpResult
  post : PostResult
deriving DecidableEq, Repr

/-! ## The program -/

/-- Source `pushAnnounce` (lines 94-118). -/
def pushAnnounce (barkKey : String) (title message : String) (post : PostResult) :
    List Event :=
  let barkApi := "https://api.day.app/" ++ barkKey
  let data : List (String × Any) :=
    [("body", .str message),
     ("title", .str title),
     ("badge", .int 1),
     ("sound", .str "minuet"),
     ("icon", .str "https://aqicn.org/images/logo/regular.png"),
     ("group", .str "Weather"),
     ("url", .str "https://air.juniortree.com")]
  [Event.pushAnnounceCall title message,
   Event.httpPost barkApi "application/json; charset=utf-8" data] ++
  match post with
  | .err err => [Event.stdout ("推送通知失败: " ++ err ++ "\n")]
  | .resp StatusCode => [Event.stdout ("通知状态码: " ++ Itoa StatusCode ++ "\n")]

/-- Source `getData` (lines 121-150): the events, then the returned pair. -/
def getData (unmarshal : Unmarshal) (airKey : String) (r : HttpResult) :
    List Event × (Int × IAQI) :=
  let airApi := "https://api.waqi.info/feed/@1451/?token=" ++ airKey
  let enter := [Event.getDataCall, Event.httpGet airApi]
  match r with
  | .getErr err => (enter ++ [Event.stdout ("请求失败: " ++ err ++ "\n")], (0, IAQI.zero))
  | .readErr err => (enter ++ [Event.stdout ("读取响应失败: " ++ err ++ "\n")], (0, IAQI.zero))
  | .body b =>
    match unmarshal b with
    | .error err => (enter ++ [Event.stdout ("JSON 解析失败: " ++ err ++ "\n")], (0, IAQI.zero))
    | .ok apiResp =>
      if apiResp.Status ≠ "ok" then
        (enter ++ [Event.stdout ("API 返回状态错误: " ++ apiResp.Status ++ "\n")], (0, IAQI.zero))
      else
        (enter, (apiResp.Data.AQI, apiResp.Data.IAQI))

/-- Source `analyze` (lines 153-167). -/
def analyze (aqi : Int) : Int :=
  if aqi ≤ 50 then 1
  else if aqi ≤ 100 then 2
  else if aqi ≤ 150 then 3
  else if aqi ≤ 200 then 4
  else if aqi ≤ 250 then 5
  else 6

/-- The branch of the loop body on the tier (lines 178-185). -/
def dispatch (barkKey : String) (AQI quality : Int) (post : PostResult) : List Event :=
  if quality = 1 then
    [Event.stdout "空气质量正常\n",
     Event.stdout ("AQI: " ++ Itoa AQI ++ ", 质量级别: " ++ Itoa quality ++ "\n")]
  else if quality ≥ 2 ∧ quality ≤ 4 then
    pushAnnounce barkKey "健康提醒"
      ("当前空气质量为轻度或中度污染，出门请佩戴口罩，当前AQI为：" ++ Itoa AQI) post
  else if quality ≥ 5 then
    pushAnnounce barkKey "出行建议"
      ("当前空气质量为重度或严重污染，建议尽量不要外出，当前AQI为：" ++ Itoa AQI) post
  else []

/-- One round of the `for` loop of `main` (lines 176-187). -/
def loopBody (unmarshal : Unmarshal) (airKey barkKey : String) (c : Cycle) : List Event :=
  let fetched := getData unmarshal airKey c.get
  let AQI := fetched.2.1
  let quality := analyze AQI
  fetched.1 ++ dispatch barkKey AQI quality c.post ++
    [Event.sleep 1000000000, Event.stdout "开始下一次检查\n"]

/-- The first `rounds` rounds of the `for` loop, starting at round `i`. -/
def mainLoop (unmarshal : Unmarshal) (airKey barkKey : String) (world : Nat → Cycle) :
    (rounds : Nat) → (i : Nat) → List Event
  | 0, _ => []
  | rounds + 1, i =>
    loopBody unmarshal airKey barkKey (world i) ++
      mainLoop unmarshal airKey barkKey world rounds (i + 1)

/-- How an observation of `main` ends. -/
inductive Exit where
  /-- `main` fell off its end and the process exits. -/
  | returned
  /-- Control is inside the `for` loop, which has no exit. -/
  | looping
deriving DecidableEq, Repr

/-- Source `main` (lines 169-190), observed for `rounds` rounds of its loop. -/
def main (unmarshal : Unmarshal) (airKey barkKey : String) (world : Nat → Cycle)
    (rounds : Nat) : List Event × Exit :=
  if airKey = "" then
    ([Event.stdout "请配置API Key\n"], Exit.returned)
  else if barkKey = "" then
    ([Event.stdout "请配置Bark Key\n"], Exit.returned)
  else
    (mainLoop unmarshal airKey barkKey world rounds 0, Exit.looping)

/-! ## Observations on event lists -/

/-- The arguments of every `pushAnnounce` invocation, in order. -/
def pushCalls (es : List Event) : List (String × String) :=
  es.filterMap fun e =>
    match e with
    | .pushAnnounceCall title message => some (title, message)
    | _ => none

/-- Number of `getData` invocations. -/
def getDataCalls (es : List Event) : Nat :=
  es.countP fun e =>
    match e with
    | .getDataCall => true
    | _ => false

/-- Number of outbound HTTP requests. -/
def httpCalls (es : List Event) : Nat :=
  es.countP fun e =>
    match e with
    | .httpGet _ => true
    | .httpPost _ _ _ => true
    | _ => false

/-- All text written to standard output, one entry per print statement. -/
def printed (es : List Event) : List String :=
  es.filterMap fun e =>
    match e with
    | .stdout text => some text
    | _ => none

/-- The string `t` occurs in `s` as a contiguous substring. -/
def Contains (s t : String) : Prop := t.data <:+: s.data

instance (s t : String) : Decidable (Contains s t) := by
  unfold Contains; infer_instance

/-! ## Sample inputs -/

/-- An envelope with the given status and AQI, everything else at its zero value. -/
def sampleResponse (status : String) (aqi : Int) : Response :=
  { Status := status
    Data :=
      { AQI := aqi, Idx := 0, Attributions := [], City := ⟨[], "", "", ""⟩,
        Dominentpol := "", IAQI := IAQI.zero, Time := ⟨"", "", 0, ""⟩,
        Forecast := ⟨⟨[], [], [], []⟩⟩, Debug := ⟨""⟩ } }

/-- A toy decoder: an empty body is malformed, a body starting with byte `1`
is an API-level error, any other body is an `ok` envelope whose AQI is its
first byte. -/
def sampleUnmarshal : Unmarshal
  | [] => .error "unexpected end of JSON input"
  | 1 :: _ => .ok (sampleResponse "error" 77)
  | n :: _ => .ok (sampleResponse "ok" n)

/-- A world that answers every round with body `[n]` and a `200` from the push
service. -/
def sampleWorld (n : Nat) : Nat → Cycle :=
  fun _ => ⟨.body [n], .resp 200⟩

/-- The four ways a fetch can fail. -/
inductive FetchError where
  /-- The call `http.Get` failed. -/
  | transport
  /-- Reading the response body failed. -/
  | read
  /-- The body is not a JSON document of the expected shape. -/
  | decode
  /-- The envelope decoded, and its status is not `"ok"`. -/
  | status
deriving DecidableEq, Repr

/-- Which failure, if any, the answer `r` of the outside world amounts to. -/
def fetchError (unmarshal : Unmarshal) (r : HttpResult) : Option FetchError :=
  match r with
  | .getErr _ => some .transport
  | .readErr _ => some .read
  | .body b =>
    match unmarshal b with
    | .error _ => some .decode
    | .ok apiResp => if apiResp.Status = "ok" then none else some .status

/-- The AQI that `getData` hands to the loop body in the round `c`. -/
def fetchedAQI (unmarshal : Unmarshal) (airKey : String) (c : Cycle) : Int :=
  (getData unmarshal airKey c.get).2.1

/-- Body text of the health reminder, without the AQI. -/
def maskAdvice : String := "当前空气质量为轻度或中度污染，出门请佩戴口罩，当前AQI为："

/-- Body text of the travel advisory, without the AQI. -/
def stayIndoors : String := "当前空气质量为重度或严重污染，建议尽量不要外出，当前AQI为："

/-! ## Shared lemmas -/

theorem analyze_eq_one_iff (aqi : Int) : analyze aqi = 1 ↔ aqi ≤ 50 := by
  unfold analyze
  split_ifs <;> omega

theorem analyze_mid_iff (aqi : Int) :
    (analyze aqi = 2 ∨ analyze aqi = 3 ∨ analyze aqi = 4) ↔ (50 < aqi ∧ aqi ≤ 200) := by
  unfold analyze
  split_ifs <;> omega

theorem analyze_high_iff (aqi : Int) :
    (analyze aqi = 5 ∨ analyze aqi = 6) ↔ 200 < aqi := by
  unfold analyze
  split_ifs <;> omega

theorem pushCalls_append (a b : List Event) :
    pushCalls (a ++ b) = pushCalls a ++ pushCalls b := by
  simp [pushCalls, List.filterMap_append]

theorem getDataCalls_append (a b : List Event) :
    getDataCalls (a ++ b) = getDataCalls a + getDataCalls b := by
  simp [getDataCalls, List.countP_append]

theorem contains_append_right (s t : String) : Contains (s ++ t) t := by
  unfold Contains
  exact ⟨s.data, [], by simp⟩

theorem pushCalls_pushAnnounce (barkKey title message : String) (post : PostResult) :
    pushCalls (pushAnnounce barkKey title message post) = [(title, message)] := by
  cases post <;> simp [pushAnnounce, pushCalls]

theorem getDataCalls_pushAnnounce (barkKey title message : String) (post : PostResult) :
    getDataCalls (pushAnnounce barkKey title message post) = 0 := by
  cases post <;> simp [pushAnnounce, getDataCalls]

theorem pushCalls_getData (unmarshal : Unmarshal) (airKey : String) (r : HttpResult) :
    pushCalls (getData unmarshal airKey r).1 = [] := by
  unfold getData
  cases r with
  | getErr err => simp [pushCalls]
  | readErr err => simp [pushCalls]
  | body b =>
    simp only
    cases unmarshal b with
    | error err => simp [pushCalls]
    | ok apiResp => by_cases h : apiResp.Status = "ok" <;> simp [pushCalls, h]

theorem getDataCalls_getData (unmarshal : Unmarshal) (airKey : String) (r : HttpResult) :
    getDataCalls (getData unmarshal airKey r).1 = 1 := by
  unfold getData
  cases r with
  | getErr err => simp [getDataCalls]
  | readErr err => simp [getDataCalls]
  | body b =>
    simp only
    cases unmarshal b with
    | error err => simp [getDataCalls]
    | ok apiResp => by_cases h : apiResp.Status = "ok" <;> simp [getDataCalls, h]

theorem pushCalls_dispatch (barkKey : String) (AQI : Int) (post : PostResult) :
    pushCalls (dispatch barkKey AQI (analyze AQI) post) =
      if AQI ≤ 50 then []
      else if AQI ≤ 200 then [("健康提醒", maskAdvice ++ Itoa AQI)]
      else [("出行建议", stayIndoors ++ Itoa AQI)] := by
  unfold dispatch analyze
  split_ifs <;> first
    | omega
    | exact pushCalls_pushAnnounce _ _ _ _
    | simp [pushCalls]

theorem getDataCalls_dispatch (barkKey : String) (AQI quality : Int) (post : PostResult) :
    getDataCalls (dispatch barkKey AQI quality post) = 0 := by
  unfold dispatch
  split_ifs <;> first
    | exact getDataCalls_pushAnnounce _ _ _ _
    | simp [getDataCalls]

theorem pushCalls_loopBody (unmarshal : Unmarshal) (airKey barkKey : String) (c : Cycle) :
    pushCalls (loopBody unmarshal airKey barkKey c) =
      pushCalls (dispatch barkKey (fetchedAQI unmarshal airKey c)
        (analyze (fetchedAQI unmarshal airKey c)) c.post) := by
  simp [loopBody, fetchedAQI, pushCalls_append, pushCalls_getData]
  simp [pushCalls]

theorem getDataCalls_loopBody (unmarshal : Unmarshal) (airKey barkKey : String) (c : Cycle) :
    getDataCalls (loopBody unmarshal airKey barkKey c) = 1 := by
  simp [loopBody, getDataCalls_append, getDataCalls_getData, getDataCalls_dispatch]
  simp [getDataCalls]

theorem getDataCalls_mainLoop (unmarshal : Unmarshal) (airKey barkKey : String)
    (world : Nat → Cycle) (rounds i : Nat) :
    getDataCalls (mainLoop unmarshal airKey barkKey world rounds i) = rounds := by
  induction rounds generalizing i with
  | zero => simp [mainLoop, getDataCalls]
  | succ n ih =>
    simp [mainLoop, getDataCalls_append, getDataCalls_loopBody, ih]
    omega

theorem printed_getData_eq_nil_iff (unmarshal : Unmarshal) (airKey : String)
    (r : HttpResult) :
    printed (getData unmarshal airKey r).1 = [] ↔ fetchError unmarshal r = none := by
  unfold getData fetchError
  cases r with
  | getErr err => simp [printed]
  | readErr err => simp [printed]
  | body b =>
    simp only
    cases unmarshal b with
    | error err => simp [printed]
    | ok apiResp => by_cases hs : apiResp.Status = "ok" <;> simp [printed, hs]

theorem getData_body_ok (unmarshal : Unmarshal) (airKey : String) (b : Bytes)
    (apiResp : Response) (hd : unmarshal b = .ok apiResp) (hs : apiResp.Status = "ok") :
    getData unmarshal airKey (.body b) =
      ([Event.getDataCall, Event.httpGet ("https://api.waqi.info/feed/@1451/?token=" ++ airKey)],
       (apiResp.Data.AQI, apiResp.Data.IAQI)) := by
  simp [getData, hd, hs]

theorem getData_body_status (unmarshal : Unmarshal) (airKey : String) (b : Bytes)
    (apiResp : Response) (hd : unmarshal b = .ok apiResp) (hs : apiResp.Status ≠ "ok") :
    getData unmarshal airKey (.body b) =
      ([Event.getDataCall, Event.httpGet ("https://api.waqi.info/feed/@1451/?token=" ++ airKey),
        Event.stdout ("API 返回状态错误: " ++ apiResp.Status ++ "\n")],
       (0, IAQI.zero)) := by
  simp [getData, hd, hs]

theorem getData_of_fetchError (unmarshal : Unmarshal) (airKey : String) (r : HttpResult)
    (k : FetchError) (h : fetchError unmarshal r = some k) :
    (getData unmarshal airKey r).2 = (0, IAQI.zero) := by
  unfold fetchError at h
  unfold getData
  cases r with
  | getErr err => rfl
  | readErr err => rfl
  | body b =>
    simp only at h ⊢
    cases hu : unmarshal b with
    | error err => rfl
    | ok apiResp =>
      rw [hu] at h
      by_cases hs : apiResp.Status = "ok"
      · simp [hs] at h
      · simp [hs]

theorem loopBody_of_tier_one (unmarshal : Unmarshal) (airKey barkKey : String) (c : Cycle)
    (h : analyze (fetchedAQI unmarshal airKey c) = 1) :
    loopBody unmarshal airKey barkKey c =
      (getData unmarshal airKey c.get).1 ++
        [Event.stdout "空气质量正常\n",
         Event.stdout ("AQI: " ++ Itoa (fetchedAQI unmarshal airKey c) ++ ", 质量级别: " ++
           Itoa 1 ++ "\n"),
         Event.sleep 1000000000,
         Event.stdout "开始下一次检查\n"] := by
  unfold fetchedAQI at h
  simp [loopBody, dispatch, fetchedAQI, h]

/-! ## The classifier -/

/-- C1: for every integer `aqi`, `analyze aqi` is the tier of the fixed
breakpoints (1 up to 50, 2 up to 100, 3 up to 150, 4 up to 200, 5 up to 250,
6 above), it lies between 1 and 6, and the twelve listed boundary values hold. -/
theorem analyze_breakpoints (aqi : Int) :
    (analyze aqi = 1 ↔ aqi ≤ 50) ∧
    (analyze aqi = 2 ↔ 50 < aqi ∧ aqi ≤ 100) ∧
    (analyze aqi = 3 ↔ 100 < aqi ∧ aqi ≤ 150) ∧
    (analyze aqi = 4 ↔ 150 < aqi ∧ aqi ≤ 200) ∧
    (analyze aqi = 5 ↔ 200 < aqi ∧ aqi ≤ 250) ∧
    (analyze aqi = 6 ↔ 250 < aqi) ∧
    (1 ≤ analyze aqi ∧ analyze aqi ≤ 6) ∧
    (analyze 50 = 1 ∧ analyze 51 = 2 ∧ analyze 100 = 2 ∧ analyze 101 = 3 ∧
     analyze 150 = 3 ∧ analyze 151 = 4 ∧ analyze 200 = 4 ∧ analyze 201 = 5 ∧
     analyze 250 = 5 ∧ analyze 251 = 6 ∧ analyze 0 = 1 ∧ analyze (-5) = 1) := by
  refine ⟨?_, ?_, ?_, ?_, ?_, ?_, ?_, by decide⟩ <;>
    (unfold analyze; split_ifs <;> omega)

/-- C10: `analyze` is monotonic non-decreasing: `a ≤ b` gives
`analyze a ≤ analyze b`. -/
theorem analyze_monotone (a b : Int) (h : a ≤ b) : analyze a ≤ analyze b := by
  unfold analyze
  split_ifs <;> omega

/-- Instance of `analyze_monotone` across the breakpoint at 50. -/
theorem analyze_monotone_at_50_51 :
    (50 : Int) ≤ 51 ∧ analyze 50 ≤ analyze 51 :=
  ⟨by decide, analyze_monotone 50 51 (by decide)⟩

/-! ## One round of the driver loop -/

/-- C2: when the tier of the fetched AQI is 2, 3 or 4 (that is, the AQI is
above 50 and at most 200), one round of the loop calls `pushAnnounce` exactly
once, with the title "健康提醒" and the mask advice followed by `Itoa AQI` as
the body, so the body contains the decimal AQI. -/
theorem health_reminder_sent (unmarshal : Unmarshal) (airKey barkKey : String) (c : Cycle)
    (h : analyze (fetchedAQI unmarshal airKey c) = 2 ∨
         analyze (fetchedAQI unmarshal airKey c) = 3 ∨
         analyze (fetchedAQI unmarshal airKey c) = 4) :
    (50 < fetchedAQI unmarshal airKey c ∧ fetchedAQI unmarshal airKey c ≤ 200) ∧
    pushCalls (loopBody unmarshal airKey barkKey c) =
      [("健康提醒", maskAdvice ++ Itoa (fetchedAQI unmarshal airKey c))] ∧
    Contains (maskAdvice ++ Itoa (fetchedAQI unmarshal airKey c))
      (Itoa (fetchedAQI unmarshal airKey c)) := by
  have hr := (analyze_mid_iff _).mp h
  refine ⟨hr, ?_, contains_append_right _ _⟩
  rw [pushCalls_loopBody, pushCalls_dispatch, if_neg (by omega), if_pos hr.2]

/-- An AQI of 75 yields one health reminder whose body contains "75". -/
theorem health_reminder_sent_at_75 :
    analyze (fetchedAQI sampleUnmarshal "token" ⟨.body [75], .resp 200⟩) = 2 ∧
    pushCalls (loopBody sampleUnmarshal "token" "device" ⟨.body [75], .resp 200⟩) =
      [("健康提醒", "当前空气质量为轻度或中度污染，出门请佩戴口罩，当前AQI为：75")] ∧
    Contains "当前空气质量为轻度或中度污染，出门请佩戴口罩，当前AQI为：75" "75" :=
  have h := health_reminder_sent sampleUnmarshal "token" "device" ⟨.body [75], .resp 200⟩
    (by decide)
  ⟨by decide, h.2.1, h.2.2⟩

/-- C3: when the tier of the fetched AQI is 5 or 6 (that is, the AQI is above
200), one round of the loop calls `pushAnnounce` exactly once, with the title
"出行建议" and the stay-indoors text followed by `Itoa AQI` as the body, so the
body contains the decimal AQI. -/
theorem travel_advisory_sent (unmarshal : Unmarshal) (airKey barkKey : String) (c : Cycle)
    (h : analyze (fetchedAQI unmarshal airKey c) = 5 ∨
         analyze (fetchedAQI unmarshal airKey c) = 6) :
    200 < fetchedAQI unmarshal airKey c ∧
    pushCalls (loopBody unmarshal airKey barkKey c) =
      [("出行建议", stayIndoors ++ Itoa (fetchedAQI unmarshal airKey c))] ∧
    Contains (stayIndoors ++ Itoa (fetchedAQI unmarshal airKey c))
      (Itoa (fetchedAQI unmarshal airKey c)) := by
  have hr := (analyze_high_iff _).mp h
  refine ⟨hr, ?_, contains_append_right _ _⟩
  rw [pushCalls_loopBody, pushCalls_dispatch, if_neg (by omega), if_neg (by omega)]

/-- An AQI of 300 yields one travel advisory whose body contains "300". -/
theorem travel_advisory_sent_at_300 :
    analyze (fetchedAQI sampleUnmarshal "token" ⟨.body [300], .resp 200⟩) = 6 ∧
    pushCalls (loopBody sampleUnmarshal "token" "device" ⟨.body [300], .resp 200⟩) =
      [("出行建议", "当前空气质量为重度或严重污染，建议尽量不要外出，当前AQI为：300")] ∧
    Contains "当前空气质量为重度或严重污染，建议尽量不要外出，当前AQI为：300" "300" :=
  have h := travel_advisory_sent sampleUnmarshal "token" "device" ⟨.body [300], .resp 200⟩
    (by decide)
  ⟨by decide, h.2.1, h.2.2⟩

/-- C4: when the tier of the fetched AQI is 1 (that is, the AQI is at most
50), one round of the loop never calls `pushAnnounce` and, after the fetch,
only prints the two normal-air-quality lines before sleeping; hence a round
sends a notification if and only if the AQI is above 50. -/
theorem normal_air_sends_nothing (unmarshal : Unmarshal) (airKey barkKey : String)
    (c : Cycle) :
    (analyze (fetchedAQI unmarshal airKey c) = 1 ↔ fetchedAQI unmarshal airKey c ≤ 50) ∧
    (analyze (fetchedAQI unmarshal airKey c) = 1 →
      pushCalls (loopBody unmarshal airKey barkKey c) = [] ∧
      loopBody unmarshal airKey barkKey c =
        (getData unmarshal airKey c.get).1 ++
          [Event.stdout "空气质量正常\n",
           Event.stdout ("AQI: " ++ Itoa (fetchedAQI unmarshal airKey c) ++ ", 质量级别: " ++
             Itoa 1 ++ "\n"),
           Event.sleep 1000000000,
           Event.stdout "开始下一次检查\n"]) ∧
    (pushCalls (loopBody unmarshal airKey barkKey c) ≠ [] ↔
      50 < fetchedAQI unmarshal airKey c) := by
  refine ⟨analyze_eq_one_iff _, ?_, ?_⟩
  · intro h
    have hle := (analyze_eq_one_iff _).mp h
    refine ⟨?_, loopBody_of_tier_one unmarshal airKey barkKey c h⟩
    rw [pushCalls_loopBody, pushCalls_dispatch, if_pos hle]
  · rw [pushCalls_loopBody, pushCalls_dispatch]
    split_ifs <;> simp <;> omega

/-- An AQI of 30 yields no notification, only the two log lines. -/
theorem normal_air_sends_nothing_at_30 :
    analyze (fetchedAQI sampleUnmarshal "token" ⟨.body [30], .resp 200⟩) = 1 ∧
    pushCalls (loopBody sampleUnmarshal "token" "device" ⟨.body [30], .resp 200⟩) = [] ∧
    printed (loopBody sampleUnmarshal "token" "device" ⟨.body [30], .resp 200⟩) =
      ["空气质量正常\n", "AQI: 30, 质量级别: 1\n", "开始下一次检查\n"] :=
  have h := (normal_air_sends_nothing sampleUnmarshal "token" "device"
    ⟨.body [30], .resp 200⟩).2.1 (by decide)
  ⟨by decide, h.1, by rw [h.2]; decide⟩

/-! ## The fetch routine -/

/-- C5: on every failure path of `getData` (transport error, read error,
decode error, status other than "ok") the returned pair is `0` and `IAQI{}`;
`analyze 0 = 1`, so the round takes the tier-1 branch and never calls
`pushAnnounce`, whichever of the four failures occurred. -/
theorem fetch_failure_is_quiet (unmarshal : Unmarshal) (airKey barkKey : String)
    (c : Cycle) (k : FetchError) (h : fetchError unmarshal c.get = some k) :
    (getData unmarshal airKey c.get).2 = (0, IAQI.zero) ∧
    analyze 0 = 1 ∧
    pushCalls (loopBody unmarshal airKey barkKey c) = [] ∧
    loopBody unmarshal airKey barkKey c =
      (getData unmarshal airKey c.get).1 ++
        [Event.stdout "空气质量正常\n",
         Event.stdout ("AQI: " ++ Itoa 0 ++ ", 质量级别: " ++ Itoa 1 ++ "\n"),
         Event.sleep 1000000000,
         Event.stdout "开始下一次检查\n"] := by
  have hz := getData_of_fetchError unmarshal airKey c.get k h
  have ha : fetchedAQI unmarshal airKey c = 0 := by
    unfold fetchedAQI
    rw [hz]
  have h1 : analyze (fetchedAQI unmarshal airKey c) = 1 := by
    rw [ha]
    decide
  refine ⟨hz, by decide, ?_, ?_⟩
  · rw [pushCalls_loopBody, pushCalls_dispatch, if_pos (by omega)]
  · have hb := loopBody_of_tier_one unmarshal airKey barkKey c h1
    rw [ha] at hb
    exact hb

/-- Each of the four failures, on a sample input: the round sends nothing,
and an AQI carried by an envelope with a bad status is dropped. -/
theorem fetch_failure_is_quiet_four_kinds :
    (fetchError sampleUnmarshal (HttpResult.getErr "dial tcp: i/o timeout") = some .transport ∧
      pushCalls (loopBody sampleUnmarshal "token" "device"
        ⟨.getErr "dial tcp: i/o timeout", .resp 200⟩) = []) ∧
    (fetchError sampleUnmarshal (HttpResult.readErr "unexpected EOF") = some .read ∧
      pushCalls (loopBody sampleUnmarshal "token" "device"
        ⟨.readErr "unexpected EOF", .resp 200⟩) = []) ∧
    (fetchError sampleUnmarshal (HttpResult.body []) = some .decode ∧
      pushCalls (loopBody sampleUnmarshal "token" "device" ⟨.body [], .resp 200⟩) = []) ∧
    (fetchError sampleUnmarshal (HttpResult.body [1]) = some .status ∧
      sampleUnmarshal [1] = .ok (sampleResponse "error" 77) ∧
      (getData sampleUnmarshal "token" (.body [1])).2 = (0, IAQI.zero) ∧
      pushCalls (loopBody sampleUnmarshal "token" "device" ⟨.body [1], .resp 200⟩) = []) :=
  ⟨⟨by decide, (fetch_failure_is_quiet sampleUnmarshal "token" "device"
      ⟨.getErr "dial tcp: i/o timeout", .resp 200⟩ .transport (by decide)).2.2.1⟩,
   ⟨by decide, (fetch_failure_is_quiet sampleUnmarshal "token" "device"
      ⟨.readErr "unexpected EOF", .resp 200⟩ .read (by decide)).2.2.1⟩,
   ⟨by decide, (fetch_failure_is_quiet sampleUnmarshal "token" "device"
      ⟨.body [], .resp 200⟩ .decode (by decide)).2.2.1⟩,
   ⟨by decide, rfl,
    (fetch_failure_is_quiet sampleUnmarshal "token" "device"
      ⟨.body [1], .resp 200⟩ .status (by decide)).1,
    (fetch_failure_is_quiet sampleUnmarshal "token" "device"
      ⟨.body [1], .resp 200⟩ .status (by decide)).2.2.1⟩⟩

/-- C6: for every decoded envelope whose status is exactly "ok", `getData`
prints no error line and returns the envelope's `data.aqi` and `data.iaqi`
unchanged, whatever the other fields of the envelope hold. -/
theorem ok_envelope_passes_through (unmarshal : Unmarshal) (airKey : String) (b : Bytes)
    (apiResp : Response) (hd : unmarshal b = .ok apiResp) (hs : apiResp.Status = "ok") :
    (getData unmarshal airKey (.body b)).2 = (apiResp.Data.AQI, apiResp.Data.IAQI) ∧
    printed (getData unmarshal airKey (.body b)).1 = [] ∧
    fetchError unmarshal (.body b) = none := by
  rw [getData_body_ok unmarshal airKey b apiResp hd hs]
  refine ⟨rfl, by simp [printed], ?_⟩
  simp [fetchError, hd, hs]

/-- An "ok" envelope with `data.aqi` 42 makes `getData` return 42. -/
theorem ok_envelope_passes_through_at_42 :
    sampleUnmarshal [42] = .ok (sampleResponse "ok" 42) ∧
    (sampleResponse "ok" 42).Status = "ok" ∧
    (getData sampleUnmarshal "token" (.body [42])).2 = (42, IAQI.zero) ∧
    printed (getData sampleUnmarshal "token" (.body [42])).1 = [] :=
  have h := ok_envelope_passes_through sampleUnmarshal "token" [42] (sampleResponse "ok" 42)
    rfl (by decide)
  ⟨rfl, by decide, h.1, h.2.1⟩

/-- C7, as stated, fails: the envelope with status "error" and the envelope
with status "ok", `data.aqi` 0 and all sub-indices 0 make `getData` return the
same pair, so the caller cannot tell the failure from that success. -/
theorem status_failure_looks_like_zero_reading :
    sampleUnmarshal [1] = .ok (sampleResponse "error" 77) ∧
    (sampleResponse "error" 77).Status ≠ "ok" ∧
    sampleUnmarshal [0] = .ok (sampleResponse "ok" 0) ∧
    (sampleResponse "ok" 0).Status = "ok" ∧
    (getData sampleUnmarshal "token" (.body [1])).2 =
      (getData sampleUnmarshal "token" (.body [0])).2 :=
  ⟨rfl, by decide, rfl, by decide, by decide⟩

/-- C7, amended: for every decoded envelope whose status is not "ok",
`getData` prints the status-error line and returns `0` with `IAQI{}`; the
whole result depends on no field of the envelope but the status.  The printed
line sets it apart from every successful fetch, but the returned pair equals
that of a successful fetch exactly when that fetch has `data.aqi` 0 and all
sub-indices 0. -/
theorem status_failure_result (unmarshal : Unmarshal) (airKey : String) (b : Bytes)
    (apiResp : Response) (hd : unmarshal b = .ok apiResp) (hs : apiResp.Status ≠ "ok") :
    getData unmarshal airKey (.body b) =
      ([Event.getDataCall, Event.httpGet ("https://api.waqi.info/feed/@1451/?token=" ++ airKey),
        Event.stdout ("API 返回状态错误: " ++ apiResp.Status ++ "\n")],
       (0, IAQI.zero)) ∧
    (∀ (unmarshal2 : Unmarshal) (b2 : Bytes) (other : Response),
      unmarshal2 b2 = .ok other → other.Status = apiResp.Status →
      getData unmarshal2 airKey (.body b2) = getData unmarshal airKey (.body b)) ∧
    (∀ (b2 : Bytes) (good : Response), unmarshal b2 = .ok good → good.Status = "ok" →
      printed (getData unmarshal airKey (.body b)).1 ≠
        printed (getData unmarshal airKey (.body b2)).1 ∧
      ((getData unmarshal airKey (.body b)).2 = (getData unmarshal airKey (.body b2)).2 ↔
        good.Data.AQI = 0 ∧ good.Data.IAQI = IAQI.zero)) := by
  have hb := getData_body_status unmarshal airKey b apiResp hd hs
  refine ⟨hb, ?_, ?_⟩
  · intro unmarshal2 b2 other hd2 hs2
    rw [hb, getData_body_status unmarshal2 airKey b2 other hd2 (by rw [hs2]; exact hs), hs2]
  · intro b2 good hd2 hs2
    rw [hb, getData_body_ok unmarshal airKey b2 good hd2 hs2]
    refine ⟨by simp [printed], ?_⟩
    simp only [Prod.mk.injEq]
    constructor
    · rintro ⟨h1, h2⟩
      exact ⟨h1.symm, h2.symm⟩
    · rintro ⟨h1, h2⟩
      exact ⟨h1.symm, h2.symm⟩

/-- A status of "error" with `data.aqi` 77: the 77 is dropped, the error line
is printed, and the pair differs from that of an "ok" envelope with AQI 42. -/
theorem status_failure_result_at_error :
    sampleUnmarshal [1] = .ok (sampleResponse "error" 77) ∧
    (sampleResponse "error" 77).Status ≠ "ok" ∧
    getData sampleUnmarshal "token" (.body [1]) =
      ([Event.getDataCall, Event.httpGet "https://api.waqi.info/feed/@1451/?token=token",
        Event.stdout "API 返回状态错误: error\n"],
       (0, IAQI.zero)) ∧
    (getData sampleUnmarshal "token" (.body [1])).2 ≠
      (getData sampleUnmarshal "token" (.body [42])).2 :=
  have h := status_failure_result sampleUnmarshal "token" [1] (sampleResponse "error" 77)
    rfl (by decide)
  ⟨rfl, by decide, h.1,
   fun e => absurd ((h.2.2 [42] (sampleResponse "ok" 42) rfl (by decide)).2.mp e).1
     (by decide)⟩

/-! ## Startup -/

/-- C8: if `airKey` or `barkKey` is empty, `main` returns without entering the
loop: no `getData` call, no `pushAnnounce` call, no outbound HTTP request, for
any number of rounds it is observed.  If both are non-empty, `main` is inside
the loop and has called `getData` once per round. -/
theorem missing_secret_skips_loop (unmarshal : Unmarshal) (airKey barkKey : String)
    (world : Nat → Cycle) (rounds : Nat) :
    (airKey = "" ∨ barkKey = "" →
      (main unmarshal airKey barkKey world rounds).2 = Exit.returned ∧
      getDataCalls (main unmarshal airKey barkKey world rounds).1 = 0 ∧
      pushCalls (main unmarshal airKey barkKey world rounds).1 = [] ∧
      httpCalls (main unmarshal airKey barkKey world rounds).1 = 0) ∧
    (airKey ≠ "" ∧ barkKey ≠ "" →
      (main unmarshal airKey barkKey world rounds).2 = Exit.looping ∧
      getDataCalls (main unmarshal airKey barkKey world rounds).1 = rounds) := by
  constructor
  · intro h
    unfold main
    by_cases ha : airKey = ""
    · simp [ha, getDataCalls, pushCalls, httpCalls]
    · have hb : barkKey = "" := h.resolve_left ha
      simp [ha, hb, getDataCalls, pushCalls, httpCalls]
  · rintro ⟨ha, hb⟩
    unfold main
    simp [ha, hb, getDataCalls_mainLoop]

/-- Three startups observed for five rounds: no API token, no push key, and
both present. -/
theorem missing_secret_skips_loop_samples :
    (main sampleUnmarshal "" "device" (sampleWorld 75) 5 =
        ([Event.stdout "请配置API Key\n"], Exit.returned) ∧
      getDataCalls (main sampleUnmarshal "" "device" (sampleWorld 75) 5).1 = 0 ∧
      httpCalls (main sampleUnmarshal "" "device" (sampleWorld 75) 5).1 = 0) ∧
    (main sampleUnmarshal "token" "" (sampleWorld 75) 5 =
        ([Event.stdout "请配置Bark Key\n"], Exit.returned) ∧
      getDataCalls (main sampleUnmarshal "token" "" (sampleWorld 75) 5).1 = 0 ∧
      httpCalls (main sampleUnmarshal "token" "" (sampleWorld 75) 5).1 = 0) ∧
    ((main sampleUnmarshal "token" "device" (sampleWorld 75) 5).2 = Exit.looping ∧
      getDataCalls (main sampleUnmarshal "token" "device" (sampleWorld 75) 5).1 = 5) :=
  have hAir := (missing_secret_skips_loop sampleUnmarshal "" "device" (sampleWorld 75) 5).1
    (Or.inl rfl)
  have hBark := (missing_secret_skips_loop sampleUnmarshal "token" "" (sampleWorld 75) 5).1
    (Or.inr rfl)
  ⟨⟨by decide, hAir.2.1, hAir.2.2.2⟩, ⟨by decide, hBark.2.1, hBark.2.2.2⟩,
   (missing_secret_skips_loop sampleUnmarshal "token" "device" (sampleWorld 75) 5).2
     (by decide)⟩

/-- C9, as stated, fails: with both secrets empty `main` prints the API-key
diagnostic only, and no printed line mentions the Bark key. -/
theorem both_secrets_empty_prints_api_only :
    printed (main sampleUnmarshal "" "" (sampleWorld 75) 1).1 = ["请配置API Key\n"] ∧
    ¬ ∃ line ∈ printed (main sampleUnmarshal "" "" (sampleWorld 75) 1).1,
      Contains line "请配置Bark Key" := by
  decide

/-- C9, amended: when at least one secret is empty, `main` prints exactly one
diagnostic, naming a missing secret: the API-key line whenever `airKey` is
empty, and the Bark-key line whenever `barkKey` is empty and `airKey` is not. -/
theorem missing_secret_diagnostic (unmarshal : Unmarshal) (airKey barkKey : String)
    (world : Nat → Cycle) (rounds : Nat) (h : airKey = "" ∨ barkKey = "") :
    (airKey = "" →
      printed (main unmarshal airKey barkKey world rounds).1 = ["请配置API Key\n"]) ∧
    (airKey ≠ "" →
      barkKey = "" ∧
      printed (main unmarshal airKey barkKey world rounds).1 = ["请配置Bark Key\n"]) := by
  constructor
  · intro ha
    simp [main, ha, printed]
  · intro ha
    have hb : barkKey = "" := h.resolve_left ha
    simp [main, ha, hb, printed]

/-- The push key alone is missing: the Bark-key line is printed. -/
theorem missing_secret_diagnostic_bark :
    ("token" = "" ∨ "" = "") ∧
    printed (main sampleUnmarshal "token" "" (sampleWorld 75) 1).1 = ["请配置Bark Key\n"] :=
  ⟨by decide,
   ((missing_secret_diagnostic sampleUnmarshal "token" "" (sampleWorld 75) 1
      (by decide)).2 (by decide)).2⟩

end AirNotfy
